import Mathlib

/-!
# Verification of `desco_balance.py`

A shallow embedding of the DESCO prepaid-balance notification script
(`src/desco_balance.py`) and proofs about its behaviour.

The script has three stages:
* `get_desco_balance` — scrape the vendor portal (preliminary GET of the
  login page, token/form scan, login POST, heuristic login check, balance
  paragraph search), converting every fault into a result string;
* `send_telegram_message` — compose the notification (appending a
  low-balance reminder when a numeric balance below 100 can be extracted
  from the raw text) and POST it once to the Telegram API;
* the `__main__` block — check the three environment secrets and run the
  two stages in order.

Python exceptions are modelled with `Except PyExc`; network and HTML-parse
outcomes are inputs (fields of an environment record), since they come from
external collaborators.  Strings are Lean `String`s; the numeric balance is
`ℚ` (Python's `float` comparisons at the magnitudes involved coincide with
the rational ones).  Digits are modelled as ASCII decimal digits.
-/

namespace DescoBalance

/-! ## String helpers (Python primitives used by the script) -/

/-- `pat.isPrefixOf hay` at every suffix: models Python's substring test
`pat in hay` (for nonempty and empty patterns alike). -/
def listContainsSub (pat : List Char) : List Char → Bool
  | [] => pat.isEmpty
  | c :: t => pat.isPrefixOf (c :: t) || listContainsSub pat t

/-- Python `pat in hay` on strings. -/
def pyIn (pat hay : String) : Bool :=
  listContainsSub pat.toList hay.toList

/-- Python `s.strip('/')`: removes `'/'` characters from BOTH ends. -/
def pyStripSlash (s : String) : String :=
  ⟨((s.toList.dropWhile (· = '/')).reverse.dropWhile (· = '/')).reverse⟩

/-- `s.strip('/')` as the spec's words describe it: trailing slashes only.
Used to compare the spec's characterisation of the login check with the
code's. -/
def specStripTrailingSlash (s : String) : String :=
  ⟨(s.toList.reverse.dropWhile (· = '/')).reverse⟩

/-! ## Numeric extraction (`send_telegram_message`, lines 36–38)

`re.sub(r'[^\d.]', '', raw)` keeps only decimal digits and dots; Python's
`float` on such a string succeeds iff it has at least one digit and at most
one dot (shapes `d+`, `d+.d*`, `.d+` and the like). -/

/-- `re.sub(r'[^\d.]', '', s)`: keep only digits and `'.'`. -/
def cleanBalance (s : String) : String :=
  ⟨s.toList.filter (fun c => c.isDigit || c = '.')⟩

/-- Value of a (possibly empty) ASCII digit string. -/
def digitsToNat (cs : List Char) : Nat :=
  cs.foldl (fun a c => 10 * a + (c.toNat - 48)) 0

/-- Split a character list at every `'.'` (the pieces between dots, in
order; `n` dots give `n + 1` pieces). -/
def splitOnDot : List Char → List (List Char)
  | [] => [[]]
  | c :: t =>
      if c = '.' then [] :: splitOnDot t
      else
        match splitOnDot t with
        | [] => [[c]]
        | p :: ps => (c :: p) :: ps

/-- Python `float(s)` restricted to the digit-and-dot strings produced by
`cleanBalance`: it succeeds iff the string has at least one digit and at
most one dot.  `none` models a raised `ValueError`.  The value of `"i.f"`
is `i + f / 10 ^ |f|`, written as the single fraction
`(digits of i ++ f) / 10 ^ |f|` (the two are equal, see
`pyFloat_split_value`). -/
def pyFloat (s : String) : Option ℚ :=
  match splitOnDot s.toList with
  | [i] =>
      if i.all Char.isDigit && !i.isEmpty then
        some (Rat.divInt (digitsToNat i) 1)
      else none
  | [i, f] =>
      if i.all Char.isDigit && f.all Char.isDigit && !(i.isEmpty && f.isEmpty) then
        some (Rat.divInt (digitsToNat (i ++ f)) ((10 : ℤ) ^ f.length))
      else none
  | _ => none

/-! ## Message composition (`send_telegram_message`, lines 27–51) -/

/-- The fixed recharge-reminder suffix (line 33). -/
def rechargeReminder : String := "\n\n⚠️ Low Balance! Please recharge soon."

/-- `f"DESCO Balance Update ({timestamp}):\n\n{raw_balance_text}"` (line 32). -/
def baseMessage (ts raw : String) : String :=
  "DESCO Balance Update (" ++ ts ++ "):\n\n" ++ raw

/-- The message body after the balance-check block (lines 32–51): the
reminder is appended exactly when the cleaned text is nonempty, converts to
a number, and that number is `< 100`; a conversion failure (`ValueError`)
is caught and leaves the message unchanged. -/
def composeMessage (ts raw : String) : String :=
  if cleanBalance raw = "" then baseMessage ts raw
  else
    match pyFloat (cleanBalance raw) with
    | some v => if v < 100 then baseMessage ts raw ++ rechargeReminder else baseMessage ts raw
    | none => baseMessage ts raw

/-! ## Python exceptions and HTTP collaborators -/

/-- A raised Python exception, split by the script's two `except` clauses
(lines 161 and 164): `requests.exceptions.RequestException` (which
includes the `HTTPError` raised by `raise_for_status`, connection errors
and timeouts) versus every other exception.  The field is `str(e)`. -/
inductive PyExc where
  | requestExc (msg : String)
  | otherExc (msg : String)
  deriving DecidableEq, Repr

/-- `str(e)` of an exception. -/
def PyExc.msg : PyExc → String
  | .requestExc m => m
  | .otherExc m => m

/-- An HTTP response as the script consumes it: final URL, status code,
decoded body text, and the message of the `HTTPError` that
`raise_for_status` raises when the status is an error (≥ 400).  The error
message is carried as data because its exact text is produced by the
`requests` library. -/
structure HttpResponse where
  url : String
  status : Nat
  text : String
  errMsg : String
  deriving DecidableEq, Repr

/-- `response.raise_for_status()` (lines 71, 111): raises `HTTPError`
(a `RequestException`) exactly when the status code is 4xx/5xx. -/
def raiseForStatus (r : HttpResponse) : Except PyExc Unit :=
  if 400 ≤ r.status then .error (.requestExc r.errMsg) else .ok ()

/-- What the script reads off the parsed login page (lines 72–104):
the name/value pairs of `<input>` elements (`soup.find('input',
{'name': n})` is modelled by the first pair with name `n`), and the
`action` attribute of the first `<form>`, `none` when there is no form or
no attribute. -/
structure LoginDoc where
  inputs : List (String × String)
  formAction : Option String
  deriving DecidableEq, Repr

/-- A `<p>` element of the dashboard page as the balance search consumes
it (lines 132–141): its `get_text()` and, when it has a nested `<span>`,
that span's `get_text(strip=True)`. -/
structure Para where
  text : String
  span : Option String
  deriving DecidableEq, Repr

/-! ## Configuration constants (lines 17–19) -/

def LOGIN_URL : String := "https://prepaid.desco.org.bd/customer/#/customer-login"

def BALANCE_PAGE_URL : String := "https://prepaid.desco.org.bd/customer/#/customer-info"

def ACCOUNT_NO_FIELD_NAME : String := "account_no"

/-- `possible_token_names` (line 76). -/
def possibleTokenNames : List String :=
  ["csrf_token", "_token", "authenticity_token", "__VIEWSTATE", "__EVENTVALIDATION"]

/-! ## The scrape (`get_desco_balance`, lines 61–170) -/

/-- The outcomes of the external steps of one retrieval attempt, fixed
before the run: the result (value or raised exception) of each network
call and of each `BeautifulSoup` parse.  `loginDoc` is the parse of
`get_response.content`; `balanceDoc` the `<p>` elements of the parse of
`login_response.content`. -/
structure ScrapeEnv where
  account : Option String
  loginGet : Except PyExc HttpResponse
  loginDoc : Except PyExc LoginDoc
  loginPost : Except PyExc HttpResponse
  balanceDoc : Except PyExc (List Para)

/-- The network calls the script can attempt, in order. -/
inductive NetCall where
  | loginGet
  | loginPost
  | telegramPost
  deriving DecidableEq, Repr

/-- What one run of `get_desco_balance` did: the returned string, the
network calls attempted, and (when the run got that far) the POST target
and form data of the login request. -/
structure ScrapeRun where
  result : String
  calls : List NetCall
  postTarget : Option String
  postData : Option (List (String × String))
  deriving DecidableEq, Repr

/-- `urljoin(LOGIN_URL, action)` for a root-relative `action` (line 99):
the base's scheme and host with the new absolute path. -/
def urljoinLogin (action : String) : String :=
  "https://prepaid.desco.org.bd" ++ action

/-- The token scan (lines 75–84): for each well-known hidden-field name,
`soup_login.find('input', {'name': name})`, kept when the element exists
and its `value` attribute is truthy (nonempty). -/
def tokenData (doc : LoginDoc) : List (String × String) :=
  possibleTokenNames.filterMap fun n =>
    match doc.inputs.lookup n with
    | some v => if v.isEmpty then none else some (n, v)
    | none => none

/-- `login_data` (line 75 plus the scan): the account-number field
followed by any discovered tokens.  A `None` account renders as the empty
string would in a POST body; the field value is threaded through
unchanged. -/
def loginData (account : Option String) (doc : LoginDoc) : List (String × String) :=
  (ACCOUNT_NO_FIELD_NAME, account.getD "") :: tokenData doc

/-- POST-target determination (lines 91–104): the first form's truthy
`action` attribute, joined against the base when root-relative, else
`LOGIN_URL`. -/
def determinePostUrl (doc : LoginDoc) : String :=
  match doc.formAction with
  | some a =>
      if a.isEmpty then LOGIN_URL
      else if a.startsWith "/" then urljoinLogin a
      else a
  | none => LOGIN_URL

/-- The login-success heuristic (lines 115–117):
`login_response.url.strip('/') == BALANCE_PAGE_URL.strip('/')`, or
`"Logout"`, or `"Account Summary"` in the body. -/
def loginSuccess (r : HttpResponse) : Bool :=
  pyStripSlash r.url = pyStripSlash BALANCE_PAGE_URL
    || pyIn "Logout" r.text || pyIn "Account Summary" r.text

/-- The balance-paragraph loop (lines 132–141), with the running
`balance_element` variable: a paragraph whose text contains
`"Remaining Balance:"` overwrites it with its first nested span (breaking
when one exists); other paragraphs leave it unchanged. -/
def scanParas (acc : Option String) : List Para → Option String
  | [] => acc
  | p :: ps =>
      if pyIn "Remaining Balance:" p.text then
        match p.span with
        | some s => some s
        | none => scanParas none ps
      else scanParas acc ps

/-- Fixed result strings of the failure branches. -/
def loginFailedText : String :=
  "Login failed. Check credentials, tokens, or website changes."

def structureNotFoundText : String := "Balance element structure not found."

/-- The two `except` clauses (lines 161–166): a `RequestException`
becomes `"Network Error: {e}"`, anything else `"Script Error: {e}"`. -/
def classifyExc : PyExc → String
  | .requestExc m => "Network Error: " ++ m
  | .otherExc m => "Script Error: " ++ m

/-- `get_desco_balance` (lines 61–170) over a fixed environment of
external outcomes: the GET of the login page and its `raise_for_status`,
the parse for tokens and the form action, the login POST and its
`raise_for_status`, the login-success heuristic, and the balance-paragraph
search; every raised exception is caught and classified by the two
`except` clauses. -/
def get_desco_balance (env : ScrapeEnv) : ScrapeRun :=
  match env.loginGet with
  | .error e => ⟨classifyExc e, [.loginGet], none, none⟩
  | .ok g =>
    match raiseForStatus g with
    | .error e => ⟨classifyExc e, [.loginGet], none, none⟩
    | .ok _ =>
      match env.loginDoc with
      | .error e => ⟨classifyExc e, [.loginGet], none, none⟩
      | .ok doc =>
        let pu := determinePostUrl doc
        let ld := loginData env.account doc
        match env.loginPost with
        | .error e => ⟨classifyExc e, [.loginGet, .loginPost], some pu, some ld⟩
        | .ok r =>
          match raiseForStatus r with
          | .error e => ⟨classifyExc e, [.loginGet, .loginPost], some pu, some ld⟩
          | .ok _ =>
            if loginSuccess r then
              match env.balanceDoc with
              | .error e => ⟨classifyExc e, [.loginGet, .loginPost], some pu, some ld⟩
              | .ok paras =>
                match scanParas none paras with
                | some s => ⟨s, [.loginGet, .loginPost], some pu, some ld⟩
                | none => ⟨structureNotFoundText, [.loginGet, .loginPost], some pu, some ld⟩
            else ⟨loginFailedText, [.loginGet, .loginPost], some pu, some ld⟩

/-! ## The notifier (`send_telegram_message`, lines 27–59) and `__main__`
(lines 173–180) -/

/-- What one call of `send_telegram_message` did: the composed message,
the body of each Telegram POST attempted (in order), and the delivery
error that was caught and printed, if any. -/
structure SendRun where
  message : String
  posts : List String
  deliveryError : Option String
  deriving DecidableEq, Repr

/-- The delivery attempt (lines 54–59): the POST itself may raise, and
`raise_for_status` raises on a non-2xx/3xx answer; both are caught by the
`except` clause. -/
def deliveryOutcome (post : Except PyExc HttpResponse) : Option String :=
  match post with
  | .error e => some e.msg
  | .ok r =>
      match raiseForStatus r with
      | .error e => some e.msg
      | .ok _ => none

/-- `send_telegram_message` (lines 27–59): compose the message (with the
balance-check block and its caught `ValueError`), then attempt exactly one
POST to the Telegram API, catching any delivery fault. -/
def send_telegram_message (ts raw : String) (post : Except PyExc HttpResponse) : SendRun :=
  let msg := composeMessage ts raw
  ⟨msg, [msg], deliveryOutcome post⟩

/-- The three environment secrets (lines 10–12), `none` when unset. -/
structure Config where
  DESCO_ACCOUNT_NO : Option String
  BOT_TOKEN : Option String
  CHAT_ID : Option String
  deriving DecidableEq, Repr

/-- Python truthiness of an optional string: `None` and `""` are falsy. -/
def pyTruthy : Option String → Bool
  | none => false
  | some s => !s.isEmpty

/-- `all([DESCO_ACCOUNT_NO, BOT_TOKEN, CHAT_ID])` (line 174). -/
def configComplete (c : Config) : Bool :=
  pyTruthy c.DESCO_ACCOUNT_NO && pyTruthy c.BOT_TOKEN && pyTruthy c.CHAT_ID

/-- External outcomes of one whole process invocation: the configuration,
the scrape environment, the notifier's timestamp string (computed from
the clock and time-zone database), and the outcome of the Telegram POST. -/
structure MainEnv where
  cfg : Config
  scrape : ScrapeEnv
  ts : String
  post : Except PyExc HttpResponse

/-- What one process invocation did: all network calls attempted (in
order), the Telegram messages posted, whether the missing-secrets error
was printed, and the interpreter's exit status. -/
structure MainRun where
  netCalls : List NetCall
  telegramPosts : List String
  configErrorPrinted : Bool
  exitCode : Nat
  deriving DecidableEq, Repr

/-- The `__main__` block (lines 173–180).  With incomplete configuration
it prints the missing-secrets error and falls off the end of the script;
otherwise it runs the scrape then the notifier.  Neither stage lets an
exception escape, and the script never calls `sys.exit`, so the
interpreter exits 0 on both branches. -/
def mainRun (env : MainEnv) : MainRun :=
  if configComplete env.cfg then
    let sr := get_desco_balance { env.scrape with account := env.cfg.DESCO_ACCOUNT_NO }
    let send := send_telegram_message env.ts sr.result env.post
    ⟨sr.calls ++ [.telegramPost], send.posts, false, 0⟩
  else ⟨[], [], true, 0⟩

/-! ## Result classification (for the totality claim) -/

/-- The returned string of a run that ended in a caught exception or a
failed login / failed element search: one of the classified failure
shapes.  (Used to state that every fault is captured and rendered
descriptive.) -/
def classifiedFailure (s : String) : Prop :=
  (∃ m, s = "Network Error: " ++ m) ∨ (∃ m, s = "Script Error: " ++ m) ∨
    s = loginFailedText ∨ s = structureNotFoundText

/-! ## The spec's reading of the login heuristic

The spec describes the URL signal with trailing slashes stripped; the code
strips both ends.  This definition follows the spec's words, for
comparison with `loginSuccess`. -/

/-- Login-success signal as the spec words it: final URL with trailing
slashes stripped equals the expected dashboard URL, or a literal marker
occurs in the body. -/
def specLoginSuccess (r : HttpResponse) : Bool :=
  specStripTrailingSlash r.url = BALANCE_PAGE_URL
    || pyIn "Logout" r.text || pyIn "Account Summary" r.text

/-! ## Concrete fixtures for witnesses and counterexamples -/

/-- A fixed timestamp string (the notifier's timestamp is an input to the
formatting). -/
def ts0 : String := "01-Jan-2026 09:00 AM"

/-- A 200 response landing on the dashboard URL. -/
def dashResp : HttpResponse := ⟨BALANCE_PAGE_URL, 200, "", ""⟩

/-- A 200 response for the preliminary GET. -/
def warmResp : HttpResponse := ⟨LOGIN_URL, 200, "", ""⟩

/-- A scrape environment that goes through cleanly and finds the balance
paragraph. -/
def envHappy : ScrapeEnv :=
  ⟨some "12345", .ok warmResp, .ok ⟨[], none⟩, .ok dashResp,
    .ok [⟨"Remaining Balance: 45.5 BDT", some "45.5 BDT"⟩]⟩

/-- A full process environment with all three secrets present. -/
def envMainHappy : MainEnv :=
  ⟨⟨some "12345", some "tok", some "chat"⟩, envHappy, ts0,
    .ok ⟨"https://api.telegram.org", 200, "", ""⟩⟩

/-- A scrape run in which the `BeautifulSoup` parse of the login page
raises a (non-request) exception whose `str` is `"42"`. -/
def envScriptErr42 : ScrapeEnv :=
  ⟨some "12345", .ok warmResp, .error (.otherExc "42"), .ok dashResp, .ok []⟩

/-- A process environment whose account secret is unset. -/
def envMissingAccount : MainEnv :=
  ⟨⟨none, some "tok", some "chat"⟩, envHappy, ts0,
    .ok ⟨"https://api.telegram.org", 200, "", ""⟩⟩

/-- A post-login response whose final URL carries a LEADING slash in
front of the dashboard URL and whose body has no marker text. -/
def leadingSlashResp : HttpResponse :=
  ⟨"/https://prepaid.desco.org.bd/customer/#/customer-info", 200, "", ""⟩

/-- A scrape environment whose login lands on `leadingSlashResp`. -/
def envLeadingSlash : ScrapeEnv :=
  ⟨some "12345", .ok warmResp, .ok ⟨[], none⟩, .ok leadingSlashResp,
    .ok [⟨"Remaining Balance: 123.45 BDT", some "123.45"⟩]⟩

/-- A scrape environment whose preliminary GET answers 500. -/
def envWarmup500 : ScrapeEnv :=
  ⟨some "12345", .ok ⟨LOGIN_URL, 500, "oops", "500 Server Error"⟩,
    .ok ⟨[], none⟩, .ok dashResp, .ok []⟩

/-- A post-login response that fails every login signal. -/
def loginFailResp : HttpResponse :=
  ⟨"https://prepaid.desco.org.bd/customer/#/customer-login", 200,
    "<html>Please log in</html>", ""⟩

/-- A scrape environment whose login POST lands back on the login page. -/
def envLoginFail : ScrapeEnv :=
  ⟨some "12345", .ok warmResp, .ok ⟨[], none⟩, .ok loginFailResp, .ok []⟩

/-- A dashboard whose first matching paragraph lacks a span: the search
must skip it and use the later complete one. -/
def parasSkip : List Para :=
  [⟨"Remaining Balance: broken", none⟩,
   ⟨"Something else", some "ignored"⟩,
   ⟨"Remaining Balance: 55.5 BDT", some "55.5 BDT"⟩]

/-- A scrape environment whose dashboard is `parasSkip`. -/
def envSkip : ScrapeEnv :=
  ⟨some "12345", .ok warmResp, .ok ⟨[], none⟩, .ok dashResp, .ok parasSkip⟩

/-! # Theorems -/

/-! ## Supporting lemmas -/

theorem pyFloat_empty : pyFloat "" = none := rfl

theorem digitsToNat_foldl_shift (f : List Char) (a : ℕ) :
    List.foldl (fun acc c => 10 * acc + (c.toNat - 48)) a f
      = a * 10 ^ f.length + digitsToNat f := by
  induction f generalizing a with
  | nil => simp [digitsToNat]
  | cons c t ih =>
      have h1 : digitsToNat (c :: t)
          = (c.toNat - 48) * 10 ^ t.length + digitsToNat t := by
        have h2 := ih (10 * 0 + (c.toNat - 48))
        simpa [digitsToNat] using h2
      simp only [List.foldl_cons, List.length_cons]
      rw [ih (10 * a + (c.toNat - 48)), h1]
      ring

theorem digitsToNat_append (i f : List Char) :
    digitsToNat (i ++ f) = digitsToNat i * 10 ^ f.length + digitsToNat f := by
  have h : digitsToNat (i ++ f)
      = List.foldl (fun acc c => 10 * acc + (c.toNat - 48)) (digitsToNat i) f := by
    unfold digitsToNat
    rw [List.foldl_append]
  rw [h, digitsToNat_foldl_shift]

/-- The fractional form used in `pyFloat` agrees with the textbook value
`intPart + fracPart / 10 ^ |fracPart|` of a decimal string. -/
theorem pyFloat_split_value (i f : List Char) :
    (Rat.divInt (digitsToNat (i ++ f)) ((10 : ℤ) ^ f.length) : ℚ)
      = (digitsToNat i : ℚ) + (digitsToNat f : ℚ) / 10 ^ f.length := by
  rw [Rat.divInt_eq_div, digitsToNat_append]
  have h10 : ((10 : ℚ) ^ f.length) ≠ 0 := by positivity
  push_cast
  field_simp

/-- A parse success forces a nonempty cleaned string. -/
theorem cleanBalance_ne_of_parse (raw : String) (v : ℚ)
    (h : pyFloat (cleanBalance raw) = some v) : cleanBalance raw ≠ "" := by
  intro he
  rw [he, pyFloat_empty] at h
  cases h

/-- No number extracted (empty or unparseable cleaned text): the message
is the bare balance-update text. -/
theorem composeMessage_of_none (ts raw : String)
    (h : pyFloat (cleanBalance raw) = none) :
    composeMessage ts raw = baseMessage ts raw := by
  by_cases he : cleanBalance raw = "" <;> simp [composeMessage, he, h]

/-- Extracted number below the threshold: the reminder is appended. -/
theorem composeMessage_of_lt (ts raw : String) (v : ℚ)
    (h : pyFloat (cleanBalance raw) = some v) (hv : v < 100) :
    composeMessage ts raw = baseMessage ts raw ++ rechargeReminder := by
  simp [composeMessage, cleanBalance_ne_of_parse raw v h, h, hv]

/-- Extracted number at or above the threshold: no reminder. -/
theorem composeMessage_of_ge (ts raw : String) (v : ℚ)
    (h : pyFloat (cleanBalance raw) = some v) (hv : ¬ v < 100) :
    composeMessage ts raw = baseMessage ts raw := by
  simp [composeMessage, cleanBalance_ne_of_parse raw v h, h, hv]

/-- Both `except` clauses hand back a classified failure string. -/
theorem classifyExc_classified (e : PyExc) : classifiedFailure (classifyExc e) := by
  cases e with
  | requestExc m => exact Or.inl ⟨m, rfl⟩
  | otherExc m => exact Or.inr (Or.inl ⟨m, rfl⟩)

/-- The paragraph scan is the first paragraph that both mentions
`"Remaining Balance:"` and carries a span, in document order. -/
theorem scanParas_eq_find (ps : List Para) :
    scanParas none ps =
      (ps.find? fun p => pyIn "Remaining Balance:" p.text && p.span.isSome).bind
        Para.span := by
  induction ps with
  | nil => rfl
  | cons p t ih =>
      unfold scanParas
      cases hin : pyIn "Remaining Balance:" p.text
      · simpa [List.find?, hin] using ih
      · cases hs : p.span with
        | none => simpa [List.find?, hin, hs] using ih
        | some s => simp [List.find?, hin, hs]

/-- The retrieval stage attempts the preliminary GET, and the login POST
exactly when the GET and the page parse went through. -/
theorem get_desco_balance_calls (env : ScrapeEnv) :
    (get_desco_balance env).calls = [NetCall.loginGet] ∨
      (get_desco_balance env).calls = [NetCall.loginGet, NetCall.loginPost] := by
  obtain ⟨acc, lg, ld, lp, bd⟩ := env
  unfold get_desco_balance
  cases lg with
  | error e => left; rfl
  | ok g =>
      unfold raiseForStatus
      by_cases hg : 400 ≤ g.status
      · left; simp [hg]
      · cases ld with
        | error e => left; simp [hg]
        | ok doc =>
            cases lp with
            | error e => right; simp [hg]
            | ok r =>
                by_cases hr : 400 ≤ r.status
                · right; simp [hg, hr]
                · cases hs : loginSuccess r
                  · right; simp [hg, hr, hs]
                  · cases bd with
                    | error e => right; simp [hg, hr, hs]
                    | ok paras =>
                        cases hscan : scanParas none paras <;>
                          · right; simp [hg, hr, hs, hscan]

/-! ## The claims -/

/-- C1.  The balance-retrieval operation is total under classification:
whatever the outcome of each network and parsing step — a raised
exception at any of them, an HTTP error status, markup without the
expected elements — `get_desco_balance` returns a result string, either a
classified descriptive failure (`"Network Error: …"`, `"Script Error: …"`,
the login-failed text, the structure-not-found text) or the scraped span
text; no exception escapes the retrieval stage. -/
theorem spec_C1_retrieval_total (env : ScrapeEnv) :
    classifiedFailure (get_desco_balance env).result ∨
      ∃ paras s, env.balanceDoc = .ok paras ∧ scanParas none paras = some s ∧
        (get_desco_balance env).result = s := by
  obtain ⟨acc, lg, ld, lp, bd⟩ := env
  unfold get_desco_balance
  cases lg with
  | error e => exact Or.inl (classifyExc_classified e)
  | ok g =>
      unfold raiseForStatus
      by_cases hg : 400 ≤ g.status
      · simp only [hg, if_true]
        exact Or.inl (classifyExc_classified (.requestExc g.errMsg))
      · simp only [hg, if_false]
        cases ld with
        | error e => exact Or.inl (classifyExc_classified e)
        | ok doc =>
            cases lp with
            | error e => exact Or.inl (classifyExc_classified e)
            | ok r =>
                by_cases hr : 400 ≤ r.status
                · simp only [hr, if_true]
                  exact Or.inl (classifyExc_classified (.requestExc r.errMsg))
                · simp only [hr, if_false]
                  cases hs : loginSuccess r
                  · simp only [Bool.false_eq_true, if_false]
                    exact Or.inl (Or.inr (Or.inr (Or.inl rfl)))
                  · simp only [if_true]
                    cases bd with
                    | error e => exact Or.inl (classifyExc_classified e)
                    | ok paras =>
                        cases hscan : scanParas none paras with
                        | none =>
                            simp only [hscan]
                            exact Or.inl (Or.inr (Or.inr (Or.inr rfl)))
                        | some s =>
                            simp only [hscan]
                            exact Or.inr ⟨paras, s, rfl, hscan, rfl⟩

/-- C2.  With all secrets present, the process attempts exactly one
Telegram POST, whatever the retrieval produced and whatever the delivery
outcome (the notifier catches delivery faults); no second attempt is
made. -/
theorem spec_C2_single_send (env : MainEnv) (h : configComplete env.cfg = true) :
    (mainRun env).telegramPosts.length = 1 ∧
      (mainRun env).netCalls.count NetCall.telegramPost = 1 := by
  unfold mainRun
  rw [if_pos h]
  refine ⟨rfl, ?_⟩
  rcases get_desco_balance_calls { env.scrape with account := env.cfg.DESCO_ACCOUNT_NO }
    with hc | hc <;> simp [hc]

/-- C2 witness: a concrete complete configuration attempts exactly one
POST. -/
theorem spec_C2_single_send_witness :
    configComplete envMainHappy.cfg = true ∧
      (mainRun envMainHappy).telegramPosts.length = 1 ∧
        (mainRun envMainHappy).netCalls.count NetCall.telegramPost = 1 :=
  ⟨by decide, spec_C2_single_send envMainHappy (by decide)⟩

/-- C3.  The low-balance boundary is strict: an extracted balance of
exactly 100 does not get the recharge suffix, while any extracted balance
strictly below 100 (such as 99.99) does. -/
theorem spec_C3_boundary (ts raw : String) (v : ℚ)
    (h : pyFloat (cleanBalance raw) = some v) :
    (v = 100 → composeMessage ts raw = baseMessage ts raw) ∧
      (v < 100 → composeMessage ts raw = baseMessage ts raw ++ rechargeReminder) := by
  constructor
  · intro hv
    exact composeMessage_of_ge ts raw v h (by rw [hv]; exact lt_irrefl 100)
  · intro hv
    exact composeMessage_of_lt ts raw v h hv

/-- C3 witness: `"100.00"` parses to exactly 100 and gets no suffix;
`"99.99"` parses below 100 and gets the suffix. -/
theorem spec_C3_boundary_witness :
    (pyFloat (cleanBalance "100.00") = some 100 ∧
      composeMessage ts0 "100.00" = baseMessage ts0 "100.00") ∧
      (pyFloat (cleanBalance "99.99") = some (Rat.divInt 9999 100) ∧
        Rat.divInt 9999 100 < 100 ∧
        composeMessage ts0 "99.99" = baseMessage ts0 "99.99" ++ rechargeReminder) :=
  ⟨⟨by decide, (spec_C3_boundary ts0 "100.00" 100 (by decide)).1 rfl⟩,
    ⟨by decide, by decide,
      (spec_C3_boundary ts0 "99.99" (Rat.divInt 9999 100) (by decide)).2 (by decide)⟩⟩

/-- C4 counterexample.  A failure result CAN get the low-balance suffix:
when the login-page parse raises an exception whose text is `"42"`, the
retrieval stage returns the failure result `"Script Error: 42"`, the
notifier's digit scrape extracts 42 from it, and the recharge reminder is
appended to the failure message. -/
theorem spec_C4_counterexample :
    (get_desco_balance envScriptErr42).result = "Script Error: 42" ∧
      classifiedFailure (get_desco_balance envScriptErr42).result ∧
      composeMessage ts0 (get_desco_balance envScriptErr42).result =
        baseMessage ts0 "Script Error: 42" ++ rechargeReminder := by
  refine ⟨by decide, Or.inr (Or.inl ⟨"42", by decide⟩), by decide⟩

/-- C4 (amended).  A failure result whose digit-and-dot residue does not
parse as a number — which includes both fixed failure strings — never
gets the low-balance suffix; only failure details whose residue parses to
a number below 100 do. -/
theorem spec_C4_no_suffix_on_unparseable_failure (ts s : String)
    (_hf : classifiedFailure s) (hp : pyFloat (cleanBalance s) = none) :
    composeMessage ts s = baseMessage ts s :=
  composeMessage_of_none ts s hp

/-- C4 witness: the fixed login-failure string cleans to `".."`, parses
to nothing, and is sent without the suffix. -/
theorem spec_C4_no_suffix_on_unparseable_failure_witness :
    classifiedFailure loginFailedText ∧
      pyFloat (cleanBalance loginFailedText) = none ∧
      composeMessage ts0 loginFailedText = baseMessage ts0 loginFailedText :=
  ⟨Or.inr (Or.inr (Or.inl rfl)), by decide,
    spec_C4_no_suffix_on_unparseable_failure ts0 loginFailedText
      (Or.inr (Or.inr (Or.inl rfl))) (by decide)⟩

/-- C5 counterexample.  The notifier never writes the framing the claim
requires: for the fixed login-failure result, the composed message
contains neither the substring `"Failed to retrieve balance."` nor the
substring `"Error: "`. -/
theorem spec_C5_counterexample :
    classifiedFailure loginFailedText ∧
      pyIn "Failed to retrieve balance." (composeMessage ts0 loginFailedText) = false ∧
      pyIn "Error: " (composeMessage ts0 loginFailedText) = false :=
  ⟨Or.inr (Or.inr (Or.inl rfl)), by decide, by decide⟩

/-- C5 (amended).  For every failure result, the composed message embeds
the failure string verbatim, immediately after the fixed header
`"DESCO Balance Update ({timestamp}):\n\n"` (possibly followed by the
reminder suffix); no `"Failed to retrieve balance."` or `"Error: "`
framing is added around it. -/
theorem spec_C5_detail_verbatim (ts s : String) (_hf : classifiedFailure s) :
    (composeMessage ts s = "DESCO Balance Update (" ++ ts ++ "):\n\n" ++ s ∨
      composeMessage ts s =
        ("DESCO Balance Update (" ++ ts ++ "):\n\n" ++ s) ++ rechargeReminder) := by
  have hbase : baseMessage ts s = "DESCO Balance Update (" ++ ts ++ "):\n\n" ++ s := rfl
  unfold composeMessage
  by_cases he : cleanBalance s = ""
  · exact Or.inl (by simp [he, hbase])
  · rw [if_neg he]
    cases hp : pyFloat (cleanBalance s) with
    | none => exact Or.inl hbase
    | some v =>
        by_cases hv : v < 100
        · exact Or.inr (by simp [hv, hbase])
        · exact Or.inl (by simp [hv, hbase])

/-- C5 witness: the structure-not-found failure string appears verbatim
after the header. -/
theorem spec_C5_detail_verbatim_witness :
    classifiedFailure structureNotFoundText ∧
      (composeMessage ts0 structureNotFoundText =
          "DESCO Balance Update (" ++ ts0 ++ "):\n\n" ++ structureNotFoundText ∨
        composeMessage ts0 structureNotFoundText =
          ("DESCO Balance Update (" ++ ts0 ++ "):\n\n" ++ structureNotFoundText) ++
            rechargeReminder) :=
  ⟨Or.inr (Or.inr (Or.inr rfl)),
    spec_C5_detail_verbatim ts0 structureNotFoundText (Or.inr (Or.inr (Or.inr rfl)))⟩

/-- C6 counterexample.  With the account secret unset, the process makes
no network call and prints the configuration error — but its exit status
is 0, not non-zero: the script only prints and falls off the end. -/
theorem spec_C6_counterexample :
    configComplete envMissingAccount.cfg = false ∧
      (mainRun envMissingAccount).netCalls = [] ∧
      (mainRun envMissingAccount).configErrorPrinted = true ∧
      (mainRun envMissingAccount).exitCode = 0 := by
  refine ⟨by decide, by decide, by decide, by decide⟩

/-- C6 (amended).  If any required secret is absent (or empty), the
process makes no network call, attempts no Telegram POST, reports the
configuration error, and exits with status 0 — the exit status does not
reflect the configuration failure. -/
theorem spec_C6_missing_config (env : MainEnv)
    (h : configComplete env.cfg = false) :
    (mainRun env).netCalls = [] ∧ (mainRun env).telegramPosts = [] ∧
      (mainRun env).configErrorPrinted = true ∧ (mainRun env).exitCode = 0 := by
  unfold mainRun
  rw [if_neg (by simp [h])]
  exact ⟨rfl, rfl, rfl, rfl⟩

/-- C6 witness: the amended behaviour at the concrete missing-account
environment. -/
theorem spec_C6_missing_config_witness :
    configComplete envMissingAccount.cfg = false ∧
      (mainRun envMissingAccount).netCalls = [] ∧
      (mainRun envMissingAccount).telegramPosts = [] ∧
      (mainRun envMissingAccount).configErrorPrinted = true ∧
      (mainRun envMissingAccount).exitCode = 0 :=
  ⟨by decide,
    (spec_C6_missing_config envMissingAccount (by decide)).1,
    (spec_C6_missing_config envMissingAccount (by decide)).2.1,
    (spec_C6_missing_config envMissingAccount (by decide)).2.2.1,
    (spec_C6_missing_config envMissingAccount (by decide)).2.2.2⟩

/-- C7 counterexample.  The claim's reading of the URL signal (trailing
slashes stripped) disagrees with the code, which strips BOTH ends: a
final URL with a leading slash in front of the dashboard URL satisfies no
signal of the claim, yet the code deems the login successful and proceeds
to balance extraction instead of returning the login-failure result. -/
theorem spec_C7_counterexample :
    specLoginSuccess leadingSlashResp = false ∧
      loginSuccess leadingSlashResp = true ∧
      (get_desco_balance envLeadingSlash).result = "123.45" ∧
      (get_desco_balance envLeadingSlash).result ≠ loginFailedText :=
  ⟨by decide, by decide, by decide, by decide⟩

/-- C7 (amended).  With LEADING AND trailing slashes stripped: when both
HTTP steps succeed, the scrape deems the login successful exactly when
the stripped final URL equals the stripped dashboard URL or the body
contains `"Logout"` or `"Account Summary"`; with no signal it returns the
login-failure result instead of proceeding to extraction. -/
theorem spec_C7_login_heuristic (acc : Option String) (g : HttpResponse)
    (doc : LoginDoc) (r : HttpResponse) (paras : List Para)
    (hgs : g.status < 400) (hrs : r.status < 400) :
    (get_desco_balance ⟨acc, .ok g, .ok doc, .ok r, .ok paras⟩).result =
        (if loginSuccess r then (scanParas none paras).getD structureNotFoundText
          else loginFailedText) ∧
      (loginSuccess r = true ↔
        (pyStripSlash r.url = pyStripSlash BALANCE_PAGE_URL ∨
          pyIn "Logout" r.text = true ∨ pyIn "Account Summary" r.text = true)) := by
  have h1 : ¬ (400 ≤ g.status) := by omega
  have h2 : ¬ (400 ≤ r.status) := by omega
  constructor
  · unfold get_desco_balance raiseForStatus
    simp only [if_neg h1, if_neg h2]
    cases hs : loginSuccess r
    · simp [hs]
    · cases hscan : scanParas none paras <;> simp [hs, hscan]
  · unfold loginSuccess
    simp [Bool.or_eq_true, or_assoc]

/-- C7 witness: a login POST that lands back on the login page with no
marker text fails every signal and yields the login-failure result. -/
theorem spec_C7_login_heuristic_witness :
    warmResp.status < 400 ∧ loginFailResp.status < 400 ∧
      (get_desco_balance envLoginFail).result = loginFailedText := by
  refine ⟨by decide, by decide, ?_⟩
  have h := (spec_C7_login_heuristic (some "12345") warmResp ⟨[], none⟩
    loginFailResp [] (by decide) (by decide)).1
  rw [show loginSuccess loginFailResp = false from by decide] at h
  simpa using h

/-- C8 counterexample.  A failing preliminary GET is NOT non-fatal: a 500
answer to the landing-page GET makes `raise_for_status` raise, retrieval
returns a network-error result, and the balance-query (login POST) step
is never attempted. -/
theorem spec_C8_counterexample :
    (get_desco_balance envWarmup500).result = "Network Error: 500 Server Error" ∧
      (get_desco_balance envWarmup500).calls = [NetCall.loginGet] := by
  exact ⟨by decide, by decide⟩

/-- C8 (amended).  An HTTP error status on the preliminary GET is fatal:
it is classified as a network error built from the transport message, and
retrieval stops — only the one GET was attempted, and no POST target or
form data was ever computed.  (The response body, far from being ignored,
is what the token scan and form-action search read on the success path.) -/
theorem spec_C8_warmup_fatal (env : ScrapeEnv) (g : HttpResponse)
    (hg : env.loginGet = .ok g) (hs : 400 ≤ g.status) :
    get_desco_balance env =
      ⟨"Network Error: " ++ g.errMsg, [NetCall.loginGet], none, none⟩ := by
  unfold get_desco_balance raiseForStatus
  rw [hg]
  simp [hs, classifyExc]

/-- C8 witness: the 500-answer environment stops after the one GET. -/
theorem spec_C8_warmup_fatal_witness :
    envWarmup500.loginGet = .ok ⟨LOGIN_URL, 500, "oops", "500 Server Error"⟩ ∧
      400 ≤ (500 : Nat) ∧
      get_desco_balance envWarmup500 =
        ⟨"Network Error: 500 Server Error", [NetCall.loginGet], none, none⟩ :=
  ⟨rfl, by decide, spec_C8_warmup_fatal envWarmup500 _ rfl (by decide)⟩

/-- C9.  The notifier's numeric extraction is total: when the cleaned
text is nonempty but unparseable, the `ValueError` is caught, no suffix
is added, and the composed message is still posted unchanged, whatever
the delivery outcome. -/
theorem spec_C9_unparseable_caught (ts raw : String)
    (post : Except PyExc HttpResponse)
    (_hne : cleanBalance raw ≠ "") (hp : pyFloat (cleanBalance raw) = none) :
    send_telegram_message ts raw post =
      ⟨baseMessage ts raw, [baseMessage ts raw], deliveryOutcome post⟩ := by
  unfold send_telegram_message
  rw [composeMessage_of_none ts raw hp]

/-- C9 witness: `"Balance element structure not found."` cleans to `"."`,
which does not parse; the message goes out unchanged. -/
theorem spec_C9_unparseable_caught_witness :
    cleanBalance structureNotFoundText = "." ∧
      pyFloat (cleanBalance structureNotFoundText) = none ∧
      send_telegram_message ts0 structureNotFoundText (.error (.requestExc "conn")) =
        ⟨baseMessage ts0 structureNotFoundText, [baseMessage ts0 structureNotFoundText],
          deliveryOutcome (.error (.requestExc "conn"))⟩ :=
  ⟨by decide, by decide,
    spec_C9_unparseable_caught ts0 structureNotFoundText (.error (.requestExc "conn"))
      (by decide) (by decide)⟩

/-- C10.  On the success path the raw balance text is the span of the
first paragraph (in document order) that both mentions
`"Remaining Balance:"` and has a nested span — matching paragraphs
without a span are skipped, not fatal — and when no such paragraph
exists the result is the literal structure-not-found string. -/
theorem spec_C10_para_search (acc : Option String) (g : HttpResponse)
    (doc : LoginDoc) (r : HttpResponse) (paras : List Para)
    (hgs : g.status < 400) (hrs : r.status < 400) (hls : loginSuccess r = true) :
    (get_desco_balance ⟨acc, .ok g, .ok doc, .ok r, .ok paras⟩).result =
      ((paras.find? fun p => pyIn "Remaining Balance:" p.text && p.span.isSome).bind
          Para.span).getD structureNotFoundText := by
  have h1 : ¬ (400 ≤ g.status) := by omega
  have h2 : ¬ (400 ≤ r.status) := by omega
  unfold get_desco_balance raiseForStatus
  simp only [if_neg h1, if_neg h2, hls, if_true]
  rw [scanParas_eq_find]
  cases hfind : (paras.find? fun p => pyIn "Remaining Balance:" p.text && p.span.isSome).bind
      Para.span <;> simp [hfind]

/-- C10 witness: the first matching paragraph has no span and is skipped;
the balance comes from the later complete paragraph. -/
theorem spec_C10_para_search_witness :
    warmResp.status < 400 ∧ dashResp.status < 400 ∧ loginSuccess dashResp = true ∧
      (get_desco_balance envSkip).result = "55.5 BDT" := by
  refine ⟨by decide, by decide, by decide, ?_⟩
  have h := spec_C10_para_search (some "12345") warmResp ⟨[], none⟩ dashResp parasSkip
    (by decide) (by decide) (by decide)
  exact h.trans (by decide)

end DescoBalance
